import Mathlib

/-!
# Verification of the slack-intro-bot LinkedIn extraction pipeline

Shallow embedding of the Python sources of the repository:

* `daily_intros.py` — LinkedIn URL extraction from message text
  (`_LINKEDIN_PATTERNS`, `_CLEANUP_PATTERNS`, `extract_linkedin_link`),
  intro classification (`is_intro_message`), message parsing
  (`parse_intro_message`), welcome-message rendering
  (`generate_welcome_message`), batch-fetch error handling
  (`get_messages_for_timestamp_range`) and the phased `main` pipeline.
* `security_config.py` — `InputValidator` / `SecurityManager`
  validation and sanitization used by `parse_intro_message`.
* `config.py` — the `Config` object and its welcome-message template.
* `src/user_profile_search.py` — the profile-field extractor
  (`extract_linkedin_link`) and the `signal.alarm`-based timeout
  discipline of the bounded profile resolver.

Strings are modelled as `List Char`; Python `str.lower` and
`re.IGNORECASE` are modelled on the ASCII range (all data handled by
the repository — URLs, keywords, usernames — is ASCII).  Each Python
regular expression used by the sources is embedded as an executable
matcher with the same backtracking semantics on the pattern's shape
(ordered literal-prefix alternatives, greedy character-class runs with
backtracking into a trailing lookahead, left-to-right search).
-/

/-! ## Character model -/

/-- ASCII lower-casing of one character, the fragment of Python
`str.lower` exercised by this code base. -/
def lowerAscii (c : Char) : Char :=
  if 65 ≤ c.toNat ∧ c.toNat ≤ 90 then Char.ofNat (c.toNat + 32) else c

/-- ASCII upper-casing of one character, the fragment of Python
`str.upper`/`str.capitalize` exercised by this code base. -/
def upperAscii (c : Char) : Char :=
  if 97 ≤ c.toNat ∧ c.toNat ≤ 122 then Char.ofNat (c.toNat - 32) else c

/-- Case-insensitive character comparison: the model of `re.IGNORECASE`
on the ASCII range. -/
def ciEq (a b : Char) : Bool := lowerAscii a == lowerAscii b

/-- `\w` of the Python `re` module, restricted to ASCII:
letters, digits and underscore. -/
def isWordChar (c : Char) : Bool :=
  (48 ≤ c.toNat && c.toNat ≤ 57) || (65 ≤ c.toNat && c.toNat ≤ 90) ||
  (97 ≤ c.toNat && c.toNat ≤ 122) || c.toNat == 95

/-- The character class `[\w\-\.]` of the LinkedIn username patterns. -/
def isWordDashDot (c : Char) : Bool :=
  isWordChar c || c == '-' || c == '.'

/-- `\s` of the Python `re` module, restricted to ASCII. -/
def isSpaceChar (c : Char) : Bool :=
  c == ' ' || c == '\t' || c == '\n' || c == '\r' ||
  c.toNat == 11 || c.toNat == 12

/-- The trailing-punctuation class `[.,;!?]` of the first cleanup
pattern of `daily_intros.py`. -/
def isPunctChar (c : Char) : Bool :=
  c == '.' || c == ',' || c == ';' || c == '!' || c == '?'

-- sanity checks on the character model
example : lowerAscii 'A' = 'a' := by decide
example : lowerAscii '<' = '<' := by decide
example : upperAscii 'm' = 'M' := by decide
example : isWordDashDot 'j' = true := by decide
example : isWordDashDot '/' = false := by decide

/-! ## List-of-characters machinery -/

/-- The character list of a string literal. -/
def lit (s : String) : List Char := s.data

/-- Case-sensitive test that `l` is a literal prefix of `s`
(Python `str.startswith`). -/
def litStarts : List Char → List Char → Bool
  | [], _ => true
  | _ :: _, [] => false
  | l :: ls, c :: cs => l == c && litStarts ls cs

/-- Case-insensitive variant of `litStarts`, the model of matching a
literal inside an `re.IGNORECASE` pattern. -/
def ciStarts : List Char → List Char → Bool
  | [], _ => true
  | _ :: _, [] => false
  | l :: ls, c :: cs => ciEq l c && ciStarts ls cs

/-- Case-insensitively match literal `l` at the head of `s` and return
the remaining suffix. -/
def ciDropLit : List Char → List Char → Option (List Char)
  | [], s => some s
  | _ :: _, [] => none
  | l :: ls, c :: cs => if ciEq l c then ciDropLit ls cs else none

/-- Python substring containment `kw in s`. -/
def containsSub (kw : List Char) : List Char → Bool
  | [] => litStarts kw []
  | s@(_ :: cs) => litStarts kw s || containsSub kw cs

/-- Drop the maximal run of characters satisfying `p` from the end of
the list. -/
def dropTrailingWhile (p : Char → Bool) (u : List Char) : List Char :=
  (u.reverse.dropWhile p).reverse

/-- Case-sensitive test that `l` is a suffix of `u`. -/
def litEnds (l : List Char) (u : List Char) : Bool :=
  litStarts l.reverse u.reverse

/-- Case-insensitive test that `l` is a suffix of `u`. -/
def ciEnds (l : List Char) (u : List Char) : Bool :=
  ciStarts l.reverse u.reverse

/-! ## Regex engine for the shapes used by the sources

Every LinkedIn pattern in the sources has the shape
"(alternation of literal prefixes) (character-class tail)", where the
alternation enumerates the expansions of `https?` and `(?:www\.)?` in
the order in which Python's backtracking engine tries them, and the
tail is one of: `[^X]+X` (bracketed), `[cls]+` (plain greedy run), or
`[cls]+/?(?=look)` (greedy run with optional slash and lookahead,
backtracking from the longest run down).  Matchers work at a fixed
position and return the length of the match; `searchLen` tries
positions left to right, as `re.search` does. -/

/-- At a fixed run length, try `/?` greedily and then check the
lookahead, exactly as the engine does once `[cls]+` has committed to
that run length. -/
def slashLookTry (look : List Char → Bool) (runLen : Nat) (after : List Char) : Option Nat :=
  match after with
  | '/' :: after2 =>
    if look after2 then some (runLen + 1)
    else if look after then some runLen else none
  | _ => if look after then some runLen else none

/-- Backtrack the greedy `[cls]+` run from its maximal length down to
one character, first trying `/?` and the lookahead at each length.
The first argument is the reversed remaining run; the second is the
text following the run. -/
def classRunBacktrack (look : List Char → Bool) : List Char → List Char → Option Nat
  | [], _ => none
  | c :: rev', after =>
    match slashLookTry look (rev'.length + 1) after with
    | some r => some r
    | none => classRunBacktrack look rev' (c :: after)

/-- Matcher for a tail of the form `[cls]+/?(?=look)` at the current
position.  Returns the length of the matched tail. -/
def classSlashLook (cls : Char → Bool) (look : List Char → Bool) (rest : List Char) : Option Nat :=
  classRunBacktrack look (rest.takeWhile cls).reverse (rest.dropWhile cls)

/-- Matcher for a tail of the form `[^X]+X` (the angle-bracket and
parenthesis patterns): at least one character other than `close`,
then `close` itself. -/
def bracketTail (close : Char) (rest : List Char) : Option Nat :=
  let run := rest.takeWhile (fun c => c != close)
  if run.isEmpty then none
  else
    match rest.drop run.length with
    | c :: _ => if c == close then some (run.length + 1) else none
    | [] => none

/-- Matcher for a plain greedy class run `[cls]+` with no trailing
constraint. -/
def classRunTail (cls : Char → Bool) (rest : List Char) : Option Nat :=
  let run := rest.takeWhile cls
  if run.isEmpty then none else some run.length

/-- Try each literal prefix alternative in order; on a prefix match run
the tail matcher, and fall through to the next alternative when either
fails — the backtracking order of `https?://(?:www\.)?…`. -/
def tryAlts (alts : List (List Char)) (tail : List Char → Option Nat) (s : List Char) : Option Nat :=
  match alts with
  | [] => none
  | p :: ps =>
    match ciDropLit p s with
    | some rest =>
      match tail rest with
      | some n => some (p.length + n)
      | none => tryAlts ps tail s
    | none => tryAlts ps tail s

/-- `re.search`: try the position matcher at every position of `s`,
left to right (the empty position at the end included), and return the
matched slice of the original text (`match.group(0)`). -/
def searchLen (m : List Char → Option Nat) : List Char → Option (List Char)
  | [] => (m []).map (fun _ => [])
  | s@(_ :: cs) =>
    match m s with
    | some n => some (s.take n)
    | none => searchLen m cs

namespace DailyIntros

/-! ## `daily_intros.py`: `_LINKEDIN_PATTERNS` and `extract_linkedin_link` -/

/-- The lookahead `(?=\s|$|>|LinkedIn|linkedin)` of the bare-URL
patterns (both literal alternatives coincide under `re.IGNORECASE`). -/
def inLookahead (s : List Char) : Bool :=
  match s with
  | [] => true
  | c :: _ => isSpaceChar c || c == '>' || ciStarts (lit "linkedin") s

/-- Expansions of `https?://(?:www\.)?linkedin\.com/in/` in
backtracking order. -/
def httpInAlts : List (List Char) :=
  [lit "https://www.linkedin.com/in/", lit "https://linkedin.com/in/",
   lit "http://www.linkedin.com/in/", lit "http://linkedin.com/in/"]

/-- Pattern 1: `<https?://(?:www\.)?linkedin\.com/in/[^>]+>`. -/
def pattern1 (s : List Char) : Option Nat :=
  tryAlts
    [lit "<https://www.linkedin.com/in/", lit "<https://linkedin.com/in/",
     lit "<http://www.linkedin.com/in/", lit "<http://linkedin.com/in/"]
    (bracketTail '>') s

/-- Pattern 2: `\(https?://(?:www\.)?linkedin\.com/in/[^)]+\)`. -/
def pattern2 (s : List Char) : Option Nat :=
  tryAlts
    [lit "(https://www.linkedin.com/in/", lit "(https://linkedin.com/in/",
     lit "(http://www.linkedin.com/in/", lit "(http://linkedin.com/in/"]
    (bracketTail ')') s

/-- Pattern 3: `https?://(?:www\.)?linkedin\.com/in/[\w\-\.]+/?(?=\s|$|>|LinkedIn|linkedin)`. -/
def pattern3 (s : List Char) : Option Nat :=
  tryAlts httpInAlts (classSlashLook isWordDashDot inLookahead) s

/-- The character class `[^\s>)\],]` of the posts pattern. -/
def isPostsChar (c : Char) : Bool :=
  !(isSpaceChar c || c == '>' || c == ')' || c == ']' || c == ',')

/-- Pattern 4: `https?://(?:www\.)?linkedin\.com/posts/[^\s>)\],]+`. -/
def pattern4 (s : List Char) : Option Nat :=
  tryAlts
    [lit "https://www.linkedin.com/posts/", lit "https://linkedin.com/posts/",
     lit "http://www.linkedin.com/posts/", lit "http://linkedin.com/posts/"]
    (classRunTail isPostsChar) s

/-- Pattern 5: `(?:www\.)?linkedin\.com/in/[\w\-\.]+/?(?=\s|$|>|LinkedIn|linkedin)`. -/
def pattern5 (s : List Char) : Option Nat :=
  tryAlts [lit "www.linkedin.com/in/", lit "linkedin.com/in/"]
    (classSlashLook isWordDashDot inLookahead) s

/-- Pattern 6: `https?://(?:www\.)?linkedin\.com/in/[\w\-\.]+/?` (loose
fallback, no lookahead). -/
def pattern6 (s : List Char) : Option Nat :=
  tryAlts httpInAlts (classSlashLook isWordDashDot (fun _ => true)) s

/-- The `for pattern in _LINKEDIN_PATTERNS: match = pattern.search(text)`
loop: the matched slice of the first pattern, in declared order, that
matches anywhere in the text. -/
def firstPatternMatch (s : List Char) : Option (List Char) :=
  match searchLen pattern1 s with
  | some m => some m
  | none =>
  match searchLen pattern2 s with
  | some m => some m
  | none =>
  match searchLen pattern3 s with
  | some m => some m
  | none =>
  match searchLen pattern4 s with
  | some m => some m
  | none =>
  match searchLen pattern5 s with
  | some m => some m
  | none => searchLen pattern6 s

/-! ## URL cleanup (`_CLEANUP_PATTERNS` and the wrapper stripping) -/

/-- `if url.startswith('<') and url.endswith('>') … elif url.startswith('(')
and url.endswith(')')`: strip a matched wrapper pair. -/
def stripWrapper (url : List Char) : List Char :=
  if litStarts (lit "<") url && litEnds (lit ">") url then (url.drop 1).dropLast
  else if litStarts (lit "(") url && litEnds (lit ")") url then (url.drop 1).dropLast
  else url

/-- `re.sub(p + '$', r, u)` for an anchored-suffix pattern: Python's `$`
also matches just before one final newline, so the substitution acts on
the part before such a newline. -/
def applyAnchored (core : List Char → List Char) (u : List Char) : List Char :=
  match u.getLast? with
  | some '\n' => core u.dropLast ++ ['\n']
  | _ => core u

/-- `[.,;!?]+$` → `''`: remove a maximal trailing punctuation run. -/
def stripTrailingPunct (u : List Char) : List Char :=
  applyAnchored (dropTrailingWhile isPunctChar) u

/-- `LinkedIn>$` → `''` (case-sensitive). -/
def stripLinkedInLabel (u : List Char) : List Char :=
  applyAnchored (fun v => if litEnds (lit "LinkedIn>") v then v.take (v.length - 9) else v) u

/-- `linkedin>$` → `''` (`re.IGNORECASE`). -/
def stripLinkedinLabelCI (u : List Char) : List Char :=
  applyAnchored (fun v => if ciEnds (lit "linkedin>") v then v.take (v.length - 9) else v) u

/-- `This$` → `''` (case-sensitive). -/
def stripThisLabel (u : List Char) : List Char :=
  applyAnchored (fun v => if litEnds (lit "This") v then v.take (v.length - 4) else v) u

/-- `/+$` → `'/'`: collapse a trailing run of slashes to a single one. -/
def collapseTrailingSlashes (u : List Char) : List Char :=
  applyAnchored
    (fun v => if litEnds (lit "/") v then dropTrailingWhile (fun c => c == '/') v ++ ['/'] else v) u

/-- `if not url.startswith('http'): url = 'https://' + url` (the check is
case-sensitive). -/
def addProtocol (u : List Char) : List Char :=
  if litStarts (lit "http") u then u else lit "https://" ++ u

/-- Everything `extract_linkedin_link` does to `match.group(0)` before
returning it: wrapper stripping, the five `_CLEANUP_PATTERNS` in order,
then protocol prefixing. -/
def cleanUrl (url : List Char) : List Char :=
  addProtocol (collapseTrailingSlashes (stripThisLabel (stripLinkedinLabelCI
    (stripLinkedInLabel (stripTrailingPunct (stripWrapper url))))))

/-- `daily_intros.extract_linkedin_link` on character lists. -/
def extractLinkedinLinkL (s : List Char) : Option (List Char) :=
  (firstPatternMatch s).map cleanUrl

/-- `daily_intros.extract_linkedin_link`. -/
def extract_linkedin_link (s : String) : Option String :=
  (extractLinkedinLinkL s.data).map (fun l => String.mk l)

end DailyIntros

-- sanity checks against the Python behaviour
example : DailyIntros.extract_linkedin_link "see https://linkedin.com/in/jane now" =
    some "https://linkedin.com/in/jane" := by decide
example : DailyIntros.extract_linkedin_link "no link here" = none := by decide

namespace UserProfileSearch

/-! ## `src/user_profile_search.py`: the profile-field extractor

Same engine, but the pattern list of that module: no cleanup pass, and
the result is lower-cased before being returned. -/

/-- The lookahead `(?=\s|$)` of the `pub` pattern. -/
def lookSpaceEnd (s : List Char) : Bool :=
  match s with
  | [] => true
  | c :: _ => isSpaceChar c

/-- The lookahead `(?=\s|$|>)` of the scheme-less patterns. -/
def lookSpaceEndGt (s : List Char) : Bool :=
  match s with
  | [] => true
  | c :: _ => isSpaceChar c || c == '>'

/-- The lookahead `(?=\s|$|>|LinkedIn|linkedin)`. -/
def lookIn (s : List Char) : Bool :=
  match s with
  | [] => true
  | c :: _ => isSpaceChar c || c == '>' || ciStarts (lit "linkedin") s

/-- Pattern 1: `<https?://(?:www\.)?linkedin\.com/in/[^>]+>`. -/
def upsPattern1 (s : List Char) : Option Nat :=
  tryAlts
    [lit "<https://www.linkedin.com/in/", lit "<https://linkedin.com/in/",
     lit "<http://www.linkedin.com/in/", lit "<http://linkedin.com/in/"]
    (bracketTail '>') s

/-- Pattern 2: `\(https?://(?:www\.)?linkedin\.com/in/[^)]+\)`. -/
def upsPattern2 (s : List Char) : Option Nat :=
  tryAlts
    [lit "(https://www.linkedin.com/in/", lit "(https://linkedin.com/in/",
     lit "(http://www.linkedin.com/in/", lit "(http://linkedin.com/in/"]
    (bracketTail ')') s

/-- Pattern 3: `https?://(?:www\.)?linkedin\.com/in/[\w\-\.]+/?(?=\s|$|>|LinkedIn|linkedin)`. -/
def upsPattern3 (s : List Char) : Option Nat :=
  tryAlts
    [lit "https://www.linkedin.com/in/", lit "https://linkedin.com/in/",
     lit "http://www.linkedin.com/in/", lit "http://linkedin.com/in/"]
    (classSlashLook isWordDashDot lookIn) s

/-- Pattern 4: `https?://(?:www\.)?linkedin\.com/pub/[\w\-\.]+/?(?=\s|$)`. -/
def upsPattern4 (s : List Char) : Option Nat :=
  tryAlts
    [lit "https://www.linkedin.com/pub/", lit "https://linkedin.com/pub/",
     lit "http://www.linkedin.com/pub/", lit "http://linkedin.com/pub/"]
    (classSlashLook isWordDashDot lookSpaceEnd) s

/-- Pattern 5: `linkedin\.com/in/[\w\-\.]+/?(?=\s|$|>)` (no `www.` option
in this module). -/
def upsPattern5 (s : List Char) : Option Nat :=
  tryAlts [lit "linkedin.com/in/"] (classSlashLook isWordDashDot lookSpaceEndGt) s

/-- Pattern 6: `linkedin\.com/pub/[\w\-\.]+/?(?=\s|$|>)`. -/
def upsPattern6 (s : List Char) : Option Nat :=
  tryAlts [lit "linkedin.com/pub/"] (classSlashLook isWordDashDot lookSpaceEndGt) s

/-- The first matching pattern's slice, in declared order. -/
def upsFirstMatch (s : List Char) : Option (List Char) :=
  match searchLen upsPattern1 s with
  | some m => some m
  | none =>
  match searchLen upsPattern2 s with
  | some m => some m
  | none =>
  match searchLen upsPattern3 s with
  | some m => some m
  | none =>
  match searchLen upsPattern4 s with
  | some m => some m
  | none =>
  match searchLen upsPattern5 s with
  | some m => some m
  | none => searchLen upsPattern6 s

/-- Wrapper stripping of this module (same two cases as `daily_intros`). -/
def upsStripWrapper (url : List Char) : List Char :=
  if litStarts (lit "<") url && litEnds (lit ">") url then (url.drop 1).dropLast
  else if litStarts (lit "(") url && litEnds (lit ")") url then (url.drop 1).dropLast
  else url

/-- `if not url.startswith('http'): url = 'https://' + url`. -/
def upsAddProtocol (u : List Char) : List Char :=
  if litStarts (lit "http") u then u else lit "https://" ++ u

/-- `url.lower()` on the ASCII model. -/
def lowerList (u : List Char) : List Char := u.map lowerAscii

/-- `src/user_profile_search.extract_linkedin_link` on character lists:
wrapper stripping, protocol prefixing, then lower-casing — no cleanup
patterns in this module. -/
def extractLinkedinLinkL (s : List Char) : Option (List Char) :=
  if s.isEmpty then none
  else (upsFirstMatch s).map (fun url => lowerList (upsAddProtocol (upsStripWrapper url)))

/-- `src/user_profile_search.extract_linkedin_link`. -/
def extract_linkedin_link (s : String) : Option String :=
  (extractLinkedinLinkL s.data).map (fun l => String.mk l)

end UserProfileSearch

-- sanity checks against the Python behaviour of the profile-field extractor
example : UserProfileSearch.extract_linkedin_link "" = none := by decide
example : UserProfileSearch.extract_linkedin_link "PM at Acme, linkedin.com/in/BobAcme" =
    some "https://linkedin.com/in/bobacme" := by decide
example : UserProfileSearch.extract_linkedin_link "My LinkedIn: https://www.linkedin.com/in/Jane" =
    some "https://www.linkedin.com/in/jane" := by decide
example : UserProfileSearch.extract_linkedin_link "HTTPS://LINKEDIN.COM/IN/FOO" =
    some "https://https://linkedin.com/in/foo" := by decide
example : UserProfileSearch.extract_linkedin_link "www.linkedin.com/in/under_score ok" =
    some "https://linkedin.com/in/under_score" := by decide
example : UserProfileSearch.extract_linkedin_link "see linkedin.com/pub/old-style here" =
    some "https://linkedin.com/pub/old-style" := by decide
example : UserProfileSearch.extract_linkedin_link "title <https://linkedin.com/in/X Y> etc" =
    some "https://linkedin.com/in/x y" := by decide
example : UserProfileSearch.extract_linkedin_link "linkedin.com/in/trailing." =
    some "https://linkedin.com/in/trailing." := by decide

/-! ## Python runtime model: errors and small string methods -/

/-- The Python exceptions relevant to the embedded code. -/
inductive PyErr where
  | attributeError
deriving Repr, DecidableEq

/-- The apostrophe character (U+0027). -/
def apos : Char := Char.ofNat 39

/-- Python `str.strip()` on the ASCII model: drop leading and trailing
whitespace. -/
def pyStrip (s : List Char) : List Char :=
  dropTrailingWhile isSpaceChar (s.dropWhile isSpaceChar)

/-- Worker for `pySplitWs`: the first argument is the reversed current
word. -/
def splitWsGo : List Char → List Char → List (List Char)
  | acc, [] => if acc.isEmpty then [] else [acc.reverse]
  | acc, c :: cs =>
    if isSpaceChar c then
      if acc.isEmpty then splitWsGo [] cs else acc.reverse :: splitWsGo [] cs
    else splitWsGo (c :: acc) cs

/-- Python `str.split()` with no argument: split on runs of whitespace,
discarding empty pieces. -/
def pySplitWs (s : List Char) : List (List Char) :=
  splitWsGo [] s

/-- Python `str.capitalize()` on the ASCII model: first character
upper-cased, the rest lower-cased. -/
def pyCapitalize (s : String) : String :=
  match s.data with
  | [] => ""
  | c :: cs => String.mk (upperAscii c :: cs.map lowerAscii)

namespace DailyIntros

/-! ## `daily_intros.py`: classifier and first-name extraction -/

/-- `_INTRO_KEYWORDS` (the membership test does not depend on the
`frozenset` iteration order). -/
def introKeywords : List (List Char) :=
  [lit "hi everyone", lit "hello everyone", lit "hey everyone", lit "hey all",
   lit "hi all", ['i', apos, 'm', ' '], lit "my name is", lit "introduction",
   lit "nice to meet", lit "pleased to meet", lit "excited to be here",
   lit "happy to be here", lit "i am", lit "i have been", lit "based",
   lit "working", lit "fun fact"]

/-- `is_intro_message` on character lists: lower-case the text and test
substring containment of any keyword. -/
def isIntroMessageL (textL : List Char) : Bool :=
  introKeywords.any (fun kw => containsSub kw (textL.map lowerAscii))

/-- `daily_intros.is_intro_message`. -/
def is_intro_message (text : String) : Bool :=
  isIntroMessageL text.data

/-- Calling `is_intro_message` the way Python would on an optional text:
a `None` argument reaches `text.lower()` and raises `AttributeError`
(`NoneType` has no attribute `lower`); a string argument never raises. -/
def is_intro_message_py (text : Option String) : Except PyErr Bool :=
  match text with
  | none => .error .attributeError
  | some s => .ok (is_intro_message s)

/-- `daily_intros.extract_first_name`: first whitespace-separated word
of the real name; for a falsy (empty) real name, the username, or
`"there"` when that is empty too. -/
def extract_first_name (real_name username : String) : String :=
  if real_name ≠ "" then
    match pySplitWs real_name.data with
    | w :: _ => String.mk w
    | [] => real_name
  else if username ≠ "" then username
  else "there"

end DailyIntros

-- sanity checks against the Python behaviour
example : DailyIntros.is_intro_message "" = false := by decide
example : DailyIntros.is_intro_message "Hi everyone, I am Bob" = true := by decide
example : DailyIntros.is_intro_message "random unrelated message about weather" = false := by decide
example : DailyIntros.is_intro_message "WORKING hard" = true := by decide
example : DailyIntros.is_intro_message "Debased currency" = true := by decide
example : DailyIntros.extract_first_name "Bob Smith" "bob" = "Bob" := by decide
example : DailyIntros.extract_first_name "" "bob" = "bob" := by decide
example : DailyIntros.extract_first_name "" "" = "there" := by decide
example : DailyIntros.extract_first_name "   " "x" = "   " := by decide
example : pyCapitalize "maRIA" = "Maria" := by decide
example : pyCapitalize "" = "" := by decide

namespace SecurityConfig

/-! ## `security_config.py`: `InputValidator` and
`SecurityManager.validate_and_sanitize_input` -/

/-- Matcher for a one-character class pattern. -/
def classMatch (p : Char → Bool) : List Char → Option Nat
  | c :: _ => if p c then some 1 else none
  | [] => none

/-- Matcher for a literal (all the literal `DANGEROUS_PATTERNS` carry
`re.IGNORECASE`). -/
def ciLitMatch (l : List Char) (s : List Char) : Option Nat :=
  if ciStarts l s then some l.length else none

/-- Matcher for `on\w+\s*=`: after `on`, the greedy `\w+` and `\s*` runs
are maximal — shortening `\w+` never helps because the character after a
shortened run is a word character, which matches neither `\s` nor `=`. -/
def onEventMatch (s : List Char) : Option Nat :=
  match ciDropLit (lit "on") s with
  | none => none
  | some rest =>
    let w := rest.takeWhile isWordChar
    if w.isEmpty then none
    else
      let rest2 := rest.drop w.length
      let sp := rest2.takeWhile isSpaceChar
      match rest2.drop sp.length with
      | '=' :: _ => some (2 + w.length + sp.length + 1)
      | _ => none

/-- `InputValidator.DANGEROUS_PATTERNS`, in declared order. -/
def dangerousMatchers : List (List Char → Option Nat) :=
  [classMatch (fun c => c == '<' || c == '>' || c == '"' || c == apos),
   ciLitMatch (lit "javascript:"), ciLitMatch (lit "data:"), ciLitMatch (lit "vbscript:"),
   onEventMatch,
   ciLitMatch (lit "<script"), ciLitMatch (lit "<iframe"), ciLitMatch (lit "<object"),
   ciLitMatch (lit "<embed"), ciLitMatch (lit "<link"), ciLitMatch (lit "<meta"),
   ciLitMatch (lit "../"), ciLitMatch (lit "..\\"),
   classMatch (fun c => c == ';' || c == '&' || c == '|' || c.toNat == 96 || c == '$')]

/-- Worker for `substAll`: the counter skips the remainder of a match
already consumed. -/
def substAllGo (m : List Char → Option Nat) : Nat → List Char → List Char
  | _, [] => []
  | skip+1, _ :: cs => substAllGo m skip cs
  | 0, c :: cs =>
    match m (c :: cs) with
    | some n => substAllGo m (n - 1) cs
    | none => c :: substAllGo m 0 cs

/-- `re.sub(p, '', text)`: scan left to right, delete each
non-overlapping match, resume after it. -/
def substAll (m : List Char → Option Nat) (s : List Char) : List Char :=
  substAllGo m 0 s

/-- The control-character class `[\x00-\x08\x0B\x0C\x0E-\x1F\x7F]`. -/
def isCtrlChar (c : Char) : Bool :=
  c.toNat ≤ 8 || c.toNat == 11 || c.toNat == 12 ||
  (14 ≤ c.toNat && c.toNat ≤ 31) || c.toNat == 127

/-- `InputValidator.sanitize_text`: empty in, empty out; truncate to
`maxLen`; delete every dangerous pattern in declared order; delete
control characters; strip. -/
def sanitize_text (t : List Char) (maxLen : Nat) : List Char :=
  if t.isEmpty then []
  else
    let t1 := t.take maxLen
    let t2 := dangerousMatchers.foldl (fun acc m => substAll m acc) t1
    let t3 := t2.filter (fun c => !isCtrlChar c)
    pyStrip t3

/-- The class `[a-zA-Z0-9\s\-\.\']` of `SAFE_NAME_PATTERN`. -/
def isSafeNameChar (c : Char) : Bool :=
  (65 ≤ c.toNat && c.toNat ≤ 90) || (97 ≤ c.toNat && c.toNat ≤ 122) ||
  (48 ≤ c.toNat && c.toNat ≤ 57) || isSpaceChar c || c == '-' || c == '.' || c == apos

/-- The class `[a-zA-Z0-9_\-\.]` of `SAFE_USERNAME_PATTERN`. -/
def isSafeUserChar (c : Char) : Bool :=
  (65 ≤ c.toNat && c.toNat ≤ 90) || (97 ≤ c.toNat && c.toNat ≤ 122) ||
  (48 ≤ c.toNat && c.toNat ≤ 57) || c == '_' || c == '-' || c == '.'

/-- `InputValidator.validate_name`: non-empty, and the stripped value
matches `^[a-zA-Z0-9\s\-\.\']{1,100}$` (the stripped value cannot end in
a newline, so `$` is plain end-of-string here). -/
def validate_name (v : String) : Bool :=
  v != "" &&
    (let s := pyStrip v.data
     decide (1 ≤ s.length) && decide (s.length ≤ 100) && s.all isSafeNameChar)

/-- `InputValidator.validate_username`: non-empty, and the stripped
value matches `^[a-zA-Z0-9_\-\.]{1,50}$`. -/
def validate_username (v : String) : Bool :=
  v != "" &&
    (let s := pyStrip v.data
     decide (1 ≤ s.length) && decide (s.length ≤ 50) && s.all isSafeUserChar)

/-- `0-9`. -/
def isDigitChar (c : Char) : Bool := 48 ≤ c.toNat && c.toNat ≤ 57

/-- The shape `^\d{4}-\d{2}-\d{2}T\d{2}:\d{2}:\d{2}\.\d{3}Z$` of
`SAFE_TIMESTAMP_PATTERN`. -/
def tsShape (l : List Char) : Bool :=
  l.length == 24 &&
    (List.range 24).all (fun i =>
      let c := l.getD i ' '
      if i == 4 || i == 7 then c == '-'
      else if i == 10 then c == 'T'
      else if i == 13 || i == 16 then c == ':'
      else if i == 19 then c == '.'
      else if i == 23 then c == 'Z'
      else isDigitChar c)

/-- `InputValidator.validate_timestamp`. -/
def validate_timestamp (v : String) : Bool :=
  v != "" && tsShape (pyStrip v.data)

/-- The `raw_data` dictionary built by `parse_intro_message`, fields in
insertion order. -/
structure RawInput where
  real_name : String
  username : String
  message_text : String
  timestamp : String
  user_id : String
  permalink : String
deriving Repr, DecidableEq

/-- The output of `SecurityManager.validate_and_sanitize_input` on that
dictionary. -/
structure SanitizedInput where
  real_name : String
  username : String
  message_text : String
  timestamp : String
  user_id : String
  permalink : String
deriving Repr, DecidableEq

/-- `SecurityManager.validate_and_sanitize_input` specialized to the six
string fields `parse_intro_message` feeds it: names are kept when valid
and otherwise sanitized to 100 characters; username-like fields are kept
when valid and otherwise sanitized to 50; timestamps are kept when valid
and otherwise emptied; everything else is sanitized to the default
`max_input_length` of 10000. -/
def validate_and_sanitize_input (r : RawInput) : SanitizedInput where
  real_name :=
    if validate_name r.real_name then r.real_name
    else String.mk (sanitize_text r.real_name.data 100)
  username :=
    if validate_username r.username then r.username
    else String.mk (sanitize_text r.username.data 50)
  message_text := String.mk (sanitize_text r.message_text.data 10000)
  timestamp := if validate_timestamp r.timestamp then r.timestamp else ""
  user_id :=
    if validate_username r.user_id then r.user_id
    else String.mk (sanitize_text r.user_id.data 50)
  permalink := String.mk (sanitize_text r.permalink.data 10000)

end SecurityConfig

-- sanity checks against the Python behaviour of the sanitizer
example : String.mk (SecurityConfig.sanitize_text (lit "hi everyone, I am Bob") 10000) =
    "hi everyone, I am Bob" := by decide
example : String.mk (SecurityConfig.sanitize_text
    (lit "I'm <b>Bob</b>; see https://linkedin.com/in/bob") 10000) =
    "Im bBob/b see https://linkedin.com/in/bob" := by decide
example : String.mk (SecurityConfig.sanitize_text (lit "working ONLOAD = x") 10000) =
    "working  x" := by decide
example : String.mk (SecurityConfig.sanitize_text (lit "a..//b") 10000) = "a/b" := by decide
example : String.mk (SecurityConfig.sanitize_text (lit "....//") 10000) = "../" := by decide
example : String.mk (SecurityConfig.sanitize_text (lit "hi $mo&ney|") 10000) = "hi money" := by decide
example : SecurityConfig.validate_name "Bob Smith" = true := by decide
example : SecurityConfig.validate_username "u9" = true := by decide
example : SecurityConfig.validate_username "U9" = true := by decide
example : SecurityConfig.validate_timestamp "2025-09-20T10:00:00.000Z" = true := by decide
example : SecurityConfig.validate_timestamp "yesterday" = false := by decide

/-- Single-pass `str.replace(pat, rep)` worker (for nonempty `pat`):
the counter skips the remainder of a replaced occurrence. -/
def replaceAllGo (pat rep : List Char) : Nat → List Char → List Char
  | _, [] => []
  | skip+1, _ :: cs => replaceAllGo pat rep skip cs
  | 0, c :: cs =>
    if litStarts pat (c :: cs) then rep ++ replaceAllGo pat rep (pat.length - 1) cs
    else c :: replaceAllGo pat rep 0 cs

/-- Python `str.replace(pat, rep)` for nonempty `pat`. -/
def replaceAll (pat rep s : List Char) : List Char :=
  replaceAllGo pat rep 0 s

namespace ConfigPy

/-! ## `config.py`: the `Config` object -/

/-- The instance attributes `Config.__init__` sets: `self.slack`,
`self.linkedin`, `self.output`, `self.logging`, `self.welcome`.  The
welcome-message template is `config.welcome.template`
(`WelcomeMessageConfig.template`, environment-overridable and validated
at startup to contain the `{first_name}` placeholder). -/
def configAttributes : List String :=
  ["slack", "linkedin", "output", "logging", "welcome"]

/-- The default of `WelcomeMessageConfig.template`. -/
def welcomeTemplateDefault : String :=
  "Aloha {first_name}!\n\nWelcome to Lenny" ++ String.mk [apos] ++
    "s podcast community!\n\nHave a wonderful day!"

/-- The attribute access `config.welcome_message_template` performed by
`daily_intros.generate_welcome_message`: Python raises `AttributeError`
when the name is not among the instance's attributes, and
`welcome_message_template` is not (only `welcome` is). -/
def config_welcome_message_template : Except PyErr String :=
  if "welcome_message_template" ∈ configAttributes then .ok welcomeTemplateDefault
  else .error .attributeError

end ConfigPy

namespace DailyIntros

/-! ## `daily_intros.py`: message parsing -/

/-- A message in the shape `get_messages_for_timestamp_range` builds
(nested `user` dictionary flattened; a missing key is the empty
string, the default `dict.get` supplies). -/
structure Message where
  userId : String
  userRealName : String
  userName : String
  text : String
  rawText : String
  tsTime : String
  permalink : String
deriving Repr, DecidableEq

/-- The intro-record dictionary `parse_intro_message` builds. -/
structure IntroRecord where
  first_name : String
  real_name : String
  username : String
  linkedin_link : Option String
  message_text : String
  timestamp : String
  user_id : String
  permalink : String
  profile_checked : Bool
deriving Repr, DecidableEq

/-- `message.get('text', '') or message.get('raw_text', '')`: the `or`
falls through to `raw_text` when `text` is falsy (empty). -/
def messageText (m : Message) : String :=
  if m.text != "" then m.text else m.rawText

/-- `daily_intros.parse_intro_message`: classify on the raw text, then
validate/sanitize all fields, extract the first name and the inline
LinkedIn link from the *sanitized* text. -/
def parse_intro_message (m : Message) : Option IntroRecord :=
  let text := messageText m
  if ¬ is_intro_message text then none
  else
    let s := SecurityConfig.validate_and_sanitize_input
      ⟨m.userRealName, m.userName, text, m.tsTime, m.userId, m.permalink⟩
    some
      { first_name := extract_first_name s.real_name s.username
        real_name := s.real_name
        username := s.username
        linkedin_link := extract_linkedin_link s.message_text
        message_text := s.message_text
        timestamp := s.timestamp
        user_id := s.user_id
        permalink := s.permalink
        profile_checked := false }

/-! ## `daily_intros.py`: welcome-message rendering -/

/-- `template.format(first_name=v)` for a template whose only
replacement field is `{first_name}`. -/
def format_first_name (tmpl v : String) : String :=
  String.mk (replaceAll (lit "{first_name}") v.data tmpl.data)

/-- `daily_intros.generate_welcome_message`: capitalize the first name,
then read `config.welcome_message_template` — an attribute the `Config`
object does not have, so the access raises. -/
def generate_welcome_message (r : IntroRecord) : Except PyErr String :=
  let fn := pyCapitalize r.first_name
  match ConfigPy.config_welcome_message_template with
  | .error e => .error e
  | .ok t => .ok (format_first_name t fn)

/-- The rendering the surrounding code intends (and performs once the
template attribute is read from where `config.py` actually stores it,
`config.welcome.template`): substitute the capitalized first name into
the configured template. -/
def render_welcome (tmpl : String) (r : IntroRecord) : String :=
  format_first_name tmpl (pyCapitalize r.first_name)

/-! ## `daily_intros.py`: batch fetch -/

/-- Outcomes of the remote search call inside
`get_messages_for_timestamp_range`. -/
inductive FetchOutcome where
  /-- the adapter returned `None` (quota exhaustion signal) -/
  | quotaExhausted
  /-- a response carrying a `results` list, already converted -/
  | ok (msgs : List Message)
  /-- a response without `results` -/
  | noResults
  /-- the search function is not defined (`NameError`) -/
  | nameError
  /-- any other exception, with its text -/
  | exception (e : String)
deriving Repr, DecidableEq

/-- The quota-exhaustion error text of
`get_messages_for_timestamp_range`. -/
def quotaErrorMessage : String :=
  "**Zapier API Error: Insufficient Tasks/Quota**\n\n" ++
  "The Zapier integration has run out of available tasks for this billing period.\n\n" ++
  "**Solutions:**\n" ++
  "- Upgrade your Zapier plan to get more tasks\n" ++
  "- Wait until your task quota resets (usually monthly)\n" ++
  "- Use the Slack API directly instead of through Zapier\n"

/-- The `NameError` error text. -/
def mcpErrorMessage : String :=
  "**MCP Configuration Error**\n\n" ++
  "The Slack search function is not available. This usually means:\n" ++
  "- MCP Zapier server is not connected\n" ++
  "- Check your MCP server configuration\n" ++
  "- Verify your Zapier integration is properly set up\n"

/-- `daily_intros.get_messages_for_timestamp_range`, reduced to its
result contract: `(messages, error_message)` with `error_message = None`
exactly on the non-error paths. -/
def get_messages_for_timestamp_range (f : FetchOutcome) : List Message × Option String :=
  match f with
  | .quotaExhausted => ([], some quotaErrorMessage)
  | .ok msgs => (msgs, none)
  | .noResults => ([], none)
  | .nameError => ([], some mcpErrorMessage)
  | .exception e => ([], some ("**Unexpected Error**\n\nError searching Slack: " ++ e ++ "\n"))

/-! ## `daily_intros.py`: report content (`save_daily_intro_report`) -/

/-- One intro section of the report (`i` is 1-based). -/
def introSection (i total : Nat) (r : IntroRecord) (w : String) : List String :=
  ["## " ++ toString i ++ ". " ++ r.real_name ++ "\n\n",
   "### 👤 User Information\n",
   "- **Name:** " ++ r.real_name ++ "\n",
   "- **Username:** @" ++ r.username ++ "\n"] ++
  (match r.linkedin_link with
   | some l =>
     ["- **LinkedIn:** [" ++ l ++ "](" ++ l ++ ")" ++
        (if r.profile_checked then " (from profile)" else "") ++ "\n"]
   | none =>
     if r.profile_checked then ["- **LinkedIn:** *Not found in message or Slack profile*\n"]
     else ["- **LinkedIn:** *Not provided*\n"]) ++
  (if r.permalink != "" then ["- **Message Link:** [View in Slack](" ++ r.permalink ++ ")\n"]
   else []) ++
  ["- **Posted:** " ++ r.timestamp ++ "\n\n",
   "### 💬 Draft Welcome Message\n\n", "```\n", w, "\n```\n\n",
   "### 📝 Original Introduction\n\n", "> ",
   String.mk (replaceAll (lit "\n") (lit "\n> ") r.message_text.data), "\n\n"] ++
  (if i < total then ["---\n\n"] else [])

/-- The `content_parts` list `save_daily_intro_report` assembles (the
date and generation time are parameters here; the file writing itself is
I/O outside the embedding). -/
def reportParts (welcomes : List (IntroRecord × String)) (dateStr genStr : String)
    (errorInfo : Option String) : List String :=
  ["# Daily Introductions - " ++ dateStr ++ "\n\n",
   "Generated at: " ++ genStr ++ "\n\n",
   "**🚀 This report was generated using LIVE Slack data via MCP Zapier integration!**\n\n"] ++
  (match errorInfo with
   | some e => ["## ⚠️ Error\n\n" ++ e ++ "\n\n"]
   | none =>
     if welcomes.isEmpty then ["*No new introductions found in recent messages.*\n"]
     else
       ["## Summary\n\n",
        "Found **" ++ toString welcomes.length ++ "** introduction(s) from recent days.\n\n",
        "---\n\n"] ++
       (welcomes.enum.flatMap (fun p => introSection (p.1 + 1) welcomes.length p.2.1 p.2.2)))

/-! ## `daily_intros.py`: the phased `main` pipeline -/

/-- The outcome of one `safe_profile_search_for_daily_intros` call as
`main` sees it: a link, no link, or a raised exception (caught by the
`try/except` around the call). -/
inductive ResolveOutcome where
  | found (url : String)
  | notFound
  | raised
deriving Repr, DecidableEq

/-- State of Phase 1: `intro_data_list`, `intro_data_by_username`
(insertion modelled by consing, lookup by first match — the Python
dictionary's last-binding-wins view), and `users_needing_profile_search`. -/
structure Phase1State where
  records : List IntroRecord
  byUsername : List (String × Nat)
  pending : List (String × String)
deriving Repr, DecidableEq

/-- `intro_data_by_username[username] = intro_data`: the new binding
shadows any earlier one. -/
def dictInsert (k : String) (v : Nat) (d : List (String × Nat)) : List (String × Nat) :=
  (k, v) :: d

/-- Dictionary lookup: the most recent binding of `k`. -/
def dictLookup (k : String) : List (String × Nat) → Option Nat
  | [] => none
  | (k', v) :: rest => if k' = k then some v else dictLookup k rest

/-- One iteration of the Phase-1 loop: parse the message; on success
append the record, (re)bind the author's username to it, and — when the
record has no inline link and the *raw* message carries a user id —
append a `(user_id, username)` pair to the pending profile searches. -/
def phase1Step (st : Phase1State) (m : Message) : Phase1State :=
  match parse_intro_message m with
  | none => st
  | some r =>
    { records := st.records ++ [r]
      byUsername := dictInsert r.username st.records.length st.byUsername
      pending :=
        if r.linkedin_link.isNone ∧ m.userId ≠ "" then st.pending ++ [(m.userId, r.username)]
        else st.pending }

/-- Phase 1 over the fetched messages. -/
def phase1 (msgs : List Message) : Phase1State :=
  msgs.foldl phase1Step ⟨[], [], []⟩

/-- `intro_data_by_username[username]['linkedin_link'] = profile_linkedin`:
the update mutates the record object the dictionary holds, which is the
same object `intro_data_list` holds at that index. -/
def setRecordAt (i : Nat) (f : IntroRecord → IntroRecord) : List IntroRecord → List IntroRecord
  | [] => []
  | r :: rs =>
    match i with
    | 0 => f r :: rs
    | i + 1 => r :: setRecordAt i f rs

/-- One iteration of the Phase-2 loop: call the resolver for the pending
pair; on a link, update the record the username dictionary points to;
on no link or a raised exception, leave everything unchanged. -/
def phase2Step (resolver : String → String → ResolveOutcome) (dict : List (String × Nat))
    (records : List IntroRecord) (call : String × String) : List IntroRecord :=
  match resolver call.1 call.2 with
  | .found url =>
    match dictLookup call.2 dict with
    | some i => setRecordAt i (fun r => { r with linkedin_link := some url }) records
    | none => records
  | _ => records

/-- Phase 2: every pending pair is passed to the resolver, in order. -/
def phase2 (resolver : String → String → ResolveOutcome) (dict : List (String × Nat))
    (records : List IntroRecord) (pending : List (String × String)) : List IntroRecord :=
  pending.foldl (phase2Step resolver dict) records

/-- Phase 3: `generate_welcome_message` for each record, in order; the
first raised exception propagates (there is no `try` around this loop). -/
def phase3 (records : List IntroRecord) : Except PyErr (List (IntroRecord × String)) :=
  records.mapM (fun r => (generate_welcome_message r).map (fun w => (r, w)))

/-- The observable outcome of one `main` run: the fetch error (if any),
the resolver calls issued, the record list after Phase 2, and either the
assembled report parts or the exception that escaped Phase 3. -/
structure MainResult where
  fetchError : Option String
  resolveCalls : List (String × String)
  records : List IntroRecord
  outcome : Except PyErr (List String)
deriving Repr

/-- `daily_intros.main`, phased: an erroring fetch short-circuits into
an error report with no classification and no resolver calls; otherwise
Phase 1 classifies and extracts, Phase 2 issues one resolver call per
pending pair, Phase 3 renders, and the report is saved (the same
`save_daily_intro_report` serves the empty and non-empty cases). -/
def mainModel (fetch : FetchOutcome) (resolver : String → String → ResolveOutcome)
    (dateStr genStr : String) : MainResult :=
  match get_messages_for_timestamp_range fetch with
  | (_, some err) =>
    { fetchError := some err
      resolveCalls := []
      records := []
      outcome := .ok (reportParts [] dateStr genStr (some err)) }
  | (msgs, none) =>
    let st := phase1 msgs
    let finalRecords := phase2 resolver st.byUsername st.records st.pending
    { fetchError := none
      resolveCalls := st.pending
      records := finalRecords
      outcome :=
        match phase3 finalRecords with
        | .error e => .error e
        | .ok ws => .ok (reportParts ws dateStr genStr none) }

end DailyIntros

namespace UserProfileSearch

/-! ## `signal.alarm` discipline of the profile resolver
(`src/user_profile_search.py`)

`signal.alarm(n)` schedules a `SIGALRM` `n` seconds away, *replacing*
any previously scheduled alarm; `signal.alarm(0)` cancels the pending
alarm.  The alarm in effect after a sequence of calls is therefore the
value of the last call. -/

/-- The alarm schedule in effect after a sequence of `signal.alarm`
calls (`0` = no alarm scheduled). -/
def alarmAfterCalls (calls : List Nat) : Nat :=
  calls.foldl (fun _ n => n) 0

/-- The `signal.alarm` calls executed, in order, on the path of
`search_user_profile_for_linkedin_with_fallback` that reaches the
tertiary username-based lookup: the outer `signal.alarm(timeout_seconds)`
at entry; the inner `signal.alarm(30)` at the top of
`search_user_profile_for_linkedin`; and the inner `finally:` block's
`signal.alarm(0)`, which runs as the inner search returns `None` —
the precondition for the username-based lookup to run at all.
(`safe_profile_search_for_daily_intros` passes `timeout_seconds = 60`.) -/
def alarmCallsBeforeUsernameLookup (timeout_seconds : Nat) : List Nat :=
  [timeout_seconds, 30, 0]

/-- The alarm schedule in effect when the tertiary
`slack_find_user_by_username` remote call starts. -/
def alarmWhenUsernameLookupRuns (timeout_seconds : Nat) : Nat :=
  alarmAfterCalls (alarmCallsBeforeUsernameLookup timeout_seconds)

end UserProfileSearch

/-! ## Concrete instances and predicates used by the claim statements -/

/-- A concrete parsed record with first name `maria`, for the
welcome-rendering claims. -/
def mariaRecord : DailyIntros.IntroRecord :=
  { first_name := "maria", real_name := "Maria Lopez", username := "maria"
    linkedin_link := none, message_text := "hi everyone, I am Maria"
    timestamp := "", user_id := "U1", permalink := "", profile_checked := false }

/-- First link-less intro message by author `U9`. -/
def msgBob1 : DailyIntros.Message :=
  { userId := "U9", userRealName := "Bob Smith", userName := "u9",
    text := "hi everyone, I am Bob", rawText := "",
    tsTime := "2025-09-20T10:00:00.000Z", permalink := "" }

/-- Second link-less intro message by the same author in the same
batch. -/
def msgBob2 : DailyIntros.Message :=
  { msgBob1 with text := "hello everyone, fun fact chess" }

/-- The distinct-author count the claim bounds resolver calls by:
authors of intro-classified messages whose parsed record carries no
inline link, deduplicated. -/
def distinctLinklessIntroAuthors (msgs : List DailyIntros.Message) : Nat :=
  ((msgs.filterMap (fun m =>
      match DailyIntros.parse_intro_message m with
      | some r => if r.linkedin_link.isNone then some m.userId else none
      | none => none)).foldl
    (fun acc x => if x ∈ acc then acc else acc ++ [x]) []).length

/-- Whether `main`'s Phase 1 queues a profile search for this message:
it parses as an intro, its sanitized text yields no inline link, and the
raw message carries a user id. -/
def needsProfileSearch (m : DailyIntros.Message) : Bool :=
  match DailyIntros.parse_intro_message m with
  | some r => r.linkedin_link.isNone && m.userId != ""
  | none => false

-- the two messages parse as link-less intros with a user id
example : needsProfileSearch msgBob1 = true := by decide
example : needsProfileSearch msgBob2 = true := by decide

/-- The invariant tying `intro_data_by_username` to `intro_data_list`:
every binding points at a record with that username (Python's
dictionary holds a reference to the record object in the list). -/
def dictConsistent (records : List DailyIntros.IntroRecord)
    (dict : List (String × Nat)) : Prop :=
  ∀ k i, DailyIntros.dictLookup k dict = some i →
    ∃ r, records[i]? = some r ∧ r.username = k

/-! ## Claim theorems -/

/-! ### Character-model lemmas -/

theorem toNat_lowerAscii (c : Char) :
    (lowerAscii c).toNat =
      if 65 ≤ c.toNat ∧ c.toNat ≤ 90 then c.toNat + 32 else c.toNat := by
  unfold lowerAscii
  split
  · rename_i h
    have hv : Nat.isValidChar (c.toNat + 32) := by
      left
      omega
    unfold Char.ofNat
    rw [dif_pos hv]
    rfl
  · rfl

theorem lowerAscii_idem (c : Char) : lowerAscii (lowerAscii c) = lowerAscii c := by
  unfold lowerAscii
  split
  · rename_i h
    have hv : Nat.isValidChar (c.toNat + 32) := by left; omega
    have ht : (Char.ofNat (c.toNat + 32)).toNat = c.toNat + 32 := by
      unfold Char.ofNat
      rw [dif_pos hv]
      rfl
    rw [if_neg]
    rw [ht]
    omega
  · rfl

theorem lowerAscii_of_lower (c : Char) (h : ¬ (65 ≤ c.toNat ∧ c.toNat ≤ 90)) :
    lowerAscii c = c := by
  unfold lowerAscii
  exact if_neg h


/-- Claim C3 — the resolver's wall-clock deadline does not survive to
the tertiary username-based lookup: by the time
`search_user_profile_for_linkedin_with_fallback` reaches
`slack_find_user_by_username`, the inner `finally: signal.alarm(0)` of
the just-returned `search_user_profile_for_linkedin` has cancelled every
pending alarm, whatever outer timeout was configured.  A hang in that
remote call is therefore unbounded, contradicting the function's own
`Always returns within timeout_seconds` / `Never hangs indefinitely`
docstring and the spec. -/
theorem c3_alarm_disarmed_at_username_lookup (timeout_seconds : Nat) :
    UserProfileSearch.alarmWhenUsernameLookupRuns timeout_seconds = 0 := by
  rfl

/-- Claim C4 — `generate_welcome_message` cannot render at all: it reads
`config.welcome_message_template`, but the `Config` object of
`config.py` stores the template at `config.welcome.template` and has no
`welcome_message_template` attribute, so the access raises
`AttributeError` for every record.  The second conjunct shows the
rendering the claim describes is what the substitution itself would
produce with the claimed template had the attribute resolved. -/
theorem c4_welcome_render_attribute_error :
    DailyIntros.generate_welcome_message mariaRecord = .error .attributeError ∧
    DailyIntros.render_welcome "Hi {first_name}!" mariaRecord = "Hi Maria!" := by
  constructor
  · rfl
  · rfl

/-- Claim C7 (amended) — `is_intro_message` never throws *on string
input* and classifies empty text false; a `None` text, however, raises
(see the counterexample), and the pipeline avoids that only because
`parse_intro_message` substitutes `''` for a missing text before
classifying. -/
theorem c7_classifier_total_on_strings :
    DailyIntros.is_intro_message "" = false ∧
    ∀ s : String, DailyIntros.is_intro_message_py (some s) =
      .ok (DailyIntros.is_intro_message s) := by
  constructor
  · rfl
  · intro s
    rfl

/-- Claim C7, counterexample — calling `is_intro_message` on an
absent/none text raises `AttributeError` (`None` has no `.lower`)
rather than classifying false. -/
theorem c7_counterexample :
    DailyIntros.is_intro_message_py none = .error .attributeError := by
  rfl

/-! ### Helper lemmas about cleaned URLs -/

theorem litStarts_http_dest (u : List Char) (h : litStarts (lit "http") u = true) :
    ∃ r, u = 'h' :: 't' :: 't' :: 'p' :: r := by
  have hl : lit "http" = ['h', 't', 't', 'p'] := rfl
  rw [hl] at h
  rcases u with _ | ⟨a, _ | ⟨b, _ | ⟨c, _ | ⟨d, r⟩⟩⟩⟩ <;> simp [litStarts] at h
  refine ⟨r, ?_⟩
  obtain ⟨ha, hb, hc, hd⟩ := h
  subst ha
  subst hb
  subst hc
  subst hd
  rfl

theorem cleanUrl_starts_http (m : List Char) :
    litStarts (lit "http") (DailyIntros.cleanUrl m) = true := by
  unfold DailyIntros.cleanUrl DailyIntros.addProtocol
  split
  · rename_i h
    exact h
  · rfl

theorem starts_http_not_wrapped (u : List Char) (h : litStarts (lit "http") u = true) :
    litStarts (lit "<") u = false ∧ litStarts (lit "(") u = false := by
  obtain ⟨r, rfl⟩ := litStarts_http_dest u h
  constructor <;> rfl

/-- Claim C5 (amended) — every URL the message-text extractor returns
starts with `http` (with `https://` prefixed exactly when the match
lacked a scheme), and is never wrapped in angle brackets or parentheses
(matched wrappers are stripped).  The original claim's stronger
`https://` prefix and trailing-punctuation guarantees fail — see the
counterexample. -/
theorem c5_extracted_link_protocol_and_unwrapped (t u : List Char)
    (h : DailyIntros.extractLinkedinLinkL t = some u) :
    litStarts (lit "http") u = true ∧
    ¬(litStarts (lit "<") u = true ∧ litEnds (lit ">") u = true) ∧
    ¬(litStarts (lit "(") u = true ∧ litEnds (lit ")") u = true) := by
  unfold DailyIntros.extractLinkedinLinkL at h
  rcases hm : DailyIntros.firstPatternMatch t with - | m
  · rw [hm] at h
    simp at h
  · rw [hm] at h
    simp at h
    have hu : u = DailyIntros.cleanUrl m := h.symm
    subst hu
    have hs := cleanUrl_starts_http m
    have hw := starts_http_not_wrapped _ hs
    refine ⟨hs, ?_, ?_⟩
    · rintro ⟨h1, -⟩
      rw [hw.1] at h1
      cases h1
    · rintro ⟨h1, -⟩
      rw [hw.2] at h1
      cases h1

/-- Claim C5, witness — the amended theorem applied to a concrete
message text. -/
theorem c5_witness :
    DailyIntros.extractLinkedinLinkL (lit "see https://linkedin.com/in/jane now") =
      some (lit "https://linkedin.com/in/jane") ∧
    (litStarts (lit "http") (lit "https://linkedin.com/in/jane") = true ∧
     ¬(litStarts (lit "<") (lit "https://linkedin.com/in/jane") = true ∧
       litEnds (lit ">") (lit "https://linkedin.com/in/jane") = true) ∧
     ¬(litStarts (lit "(") (lit "https://linkedin.com/in/jane") = true ∧
       litEnds (lit ")") (lit "https://linkedin.com/in/jane") = true)) :=
  ⟨by decide,
   c5_extracted_link_protocol_and_unwrapped (lit "see https://linkedin.com/in/jane now")
     (lit "https://linkedin.com/in/jane") (by decide)⟩

/-- Claim C5, counterexample — a bare `http://` profile URL is returned
with its original scheme, not `https://`; and a username ending in
`.This` has the `This` artifact stripped, re-exposing trailing sentence
punctuation in the returned URL. -/
theorem c5_counterexample :
    DailyIntros.extract_linkedin_link "http://linkedin.com/in/jane-doe" =
      some "http://linkedin.com/in/jane-doe" ∧
    litStarts (lit "https://") (lit "http://linkedin.com/in/jane-doe") = false ∧
    DailyIntros.extract_linkedin_link "https://linkedin.com/in/x.This rest" =
      some "https://linkedin.com/in/x." ∧
    litEnds (lit ".") (lit "https://linkedin.com/in/x.") = true := by
  refine ⟨by decide, by decide, by decide, by decide⟩

/-- Claim C8 (amended) — a LinkedIn URL with nothing after `/in/` is a
non-match in every pattern shape (each requires at least one username
character), but the claim's stronger form fails: the cleanup rules can
strip a punctuation-only username down to length zero — see the
counterexample. -/
theorem c8_no_username_is_no_match :
    DailyIntros.extract_linkedin_link "https://linkedin.com/in/" = none ∧
    DailyIntros.extract_linkedin_link "<https://linkedin.com/in/>" = none ∧
    DailyIntros.extract_linkedin_link "site https://linkedin.com/in/ stop" = none := by
  refine ⟨by decide, by decide, by decide⟩

/-- Claim C8, counterexample — a dot-only username matches pattern 3 and
the trailing-punctuation cleanup then erases it, so the extractor
returns a URL whose path segment after `/in/` is empty. -/
theorem c8_counterexample :
    DailyIntros.extract_linkedin_link "https://linkedin.com/in/." =
      some "https://linkedin.com/in/" ∧
    litEnds (lit "/in/") (lit "https://linkedin.com/in/") = true := by
  refine ⟨by decide, by decide⟩

theorem lowerList_idem (u : List Char) :
    UserProfileSearch.lowerList (UserProfileSearch.lowerList u) =
      UserProfileSearch.lowerList u := by
  unfold UserProfileSearch.lowerList
  rw [List.map_map]
  congr 1
  funext c
  exact lowerAscii_idem c

/-- Claim C10 — every link the profile-field extractor of
`src/user_profile_search.py` returns starts with `http` and is a fixed
point of lower-casing (the function ends in `url.lower()`), while the
message-text extractor of `daily_intros.py` preserves the matched
link's original case (second conjunct). -/
theorem c10_profile_links_lowercased :
    (∀ t u : List Char, UserProfileSearch.extractLinkedinLinkL t = some u →
      litStarts (lit "http") u = true ∧ UserProfileSearch.lowerList u = u) ∧
    DailyIntros.extract_linkedin_link "see https://linkedin.com/in/Jane-Doe now" =
      some "https://linkedin.com/in/Jane-Doe" := by
  constructor
  · intro t u h
    unfold UserProfileSearch.extractLinkedinLinkL at h
    split at h
    · cases h
    · rcases hm : UserProfileSearch.upsFirstMatch t with - | m
      · rw [hm] at h
        cases h
      · rw [hm] at h
        simp at h
        have hu : u = UserProfileSearch.lowerList
            (UserProfileSearch.upsAddProtocol (UserProfileSearch.upsStripWrapper m)) := h.symm
        subst hu
        refine ⟨?_, lowerList_idem _⟩
        unfold UserProfileSearch.upsAddProtocol
        split
        · rename_i hs
          obtain ⟨r, hr⟩ := litStarts_http_dest _ hs
          rw [hr]
          rfl
        · rfl
  · decide

/-- Claim C10, witness — the profile-field extractor applied to the
spec's own profile-fallback scenario, with the theorem's conclusions
instantiated there. -/
theorem c10_witness :
    UserProfileSearch.extractLinkedinLinkL (lit "PM at Acme, linkedin.com/in/BobAcme") =
      some (lit "https://linkedin.com/in/bobacme") ∧
    (litStarts (lit "http") (lit "https://linkedin.com/in/bobacme") = true ∧
     UserProfileSearch.lowerList (lit "https://linkedin.com/in/bobacme") =
       lit "https://linkedin.com/in/bobacme") :=
  ⟨by decide,
   c10_profile_links_lowercased.1 (lit "PM at Acme, linkedin.com/in/BobAcme")
     (lit "https://linkedin.com/in/bobacme") (by decide)⟩

/-- Claim C9 — when the batch fetch signals quota exhaustion (the
adapter returns `None`), the run aborts: no record is built, no
resolver call is issued, and the saved report carries the user-visible
error section — it is not the normal empty report. -/
theorem c9_quota_exhaustion_aborts (resolver : String → String → DailyIntros.ResolveOutcome)
    (dateStr genStr : String) :
    (DailyIntros.mainModel .quotaExhausted resolver dateStr genStr).records = [] ∧
    (DailyIntros.mainModel .quotaExhausted resolver dateStr genStr).resolveCalls = [] ∧
    (DailyIntros.mainModel .quotaExhausted resolver dateStr genStr).fetchError =
      some DailyIntros.quotaErrorMessage ∧
    (DailyIntros.mainModel .quotaExhausted resolver dateStr genStr).outcome =
      .ok (DailyIntros.reportParts [] dateStr genStr (some DailyIntros.quotaErrorMessage)) ∧
    (DailyIntros.reportParts [] dateStr genStr (some DailyIntros.quotaErrorMessage)).getD 3 "" =
      "## ⚠️ Error\n\n" ++ DailyIntros.quotaErrorMessage ++ "\n\n" ∧
    DailyIntros.reportParts [] dateStr genStr (some DailyIntros.quotaErrorMessage) ≠
      DailyIntros.reportParts [] dateStr genStr none := by
  refine ⟨rfl, rfl, rfl, rfl, rfl, ?_⟩
  intro h
  have h3 : ("## ⚠️ Error\n\n" ++ DailyIntros.quotaErrorMessage ++ "\n\n") =
      "*No new introductions found in recent messages.*\n" := by
    have hg := congrArg (fun l => l.getD 3 "") h
    simpa [DailyIntros.reportParts] using hg
  exact absurd h3 (by decide)

/-! ### Claims C1/C2: resolver-call accounting and record updates -/

theorem phase1_pending_length (msgs : List DailyIntros.Message) (st : DailyIntros.Phase1State) :
    (msgs.foldl DailyIntros.phase1Step st).pending.length =
      st.pending.length + (msgs.filter needsProfileSearch).length := by
  induction msgs generalizing st with
  | nil => rfl
  | cons m ms ih =>
    rw [List.foldl_cons, ih]
    rcases hp : DailyIntros.parse_intro_message m with - | r
    · have h1 : DailyIntros.phase1Step st m = st := by
        unfold DailyIntros.phase1Step
        rw [hp]
      have h2 : needsProfileSearch m = false := by
        unfold needsProfileSearch
        rw [hp]
      rw [h1, List.filter_cons, h2]
      simp
    · by_cases hc : r.linkedin_link.isNone ∧ m.userId ≠ ""
      · have h1 : (DailyIntros.phase1Step st m).pending = st.pending ++ [(m.userId, r.username)] := by
          unfold DailyIntros.phase1Step
          rw [hp]
          simp only
          rw [if_pos hc]
        have h2 : needsProfileSearch m = true := by
          unfold needsProfileSearch
          rw [hp]
          simp only [Bool.and_eq_true, bne_iff_ne]
          exact ⟨hc.1, hc.2⟩
        rw [h1, List.filter_cons, h2]
        simp
        omega
      · have h1 : (DailyIntros.phase1Step st m).pending = st.pending := by
          unfold DailyIntros.phase1Step
          rw [hp]
          simp only
          rw [if_neg hc]
        have h2 : needsProfileSearch m = false := by
          unfold needsProfileSearch
          rw [hp]
          rw [Bool.eq_false_iff]
          intro hcc
          rw [Bool.and_eq_true, bne_iff_ne] at hcc
          exact hc hcc
        rw [h1, List.filter_cons, h2]
        simp

/-- Claim C1 (amended) — the pipeline issues exactly one profile
resolution call per intro-classified message that lacks an inline link
and carries an author id: the pending list is per message, not per
distinct author, so an author with several link-less intro messages in
one batch is resolved once per message. -/
theorem c1_one_resolution_call_per_linkless_intro_message
    (msgs : List DailyIntros.Message) (resolver : String → String → DailyIntros.ResolveOutcome)
    (dateStr genStr : String) :
    (DailyIntros.mainModel (.ok msgs) resolver dateStr genStr).resolveCalls.length =
      (msgs.filter needsProfileSearch).length := by
  have hr : (DailyIntros.mainModel (.ok msgs) resolver dateStr genStr).resolveCalls =
      (DailyIntros.phase1 msgs).pending := rfl
  rw [hr]
  unfold DailyIntros.phase1
  rw [phase1_pending_length]
  simp

/-- Claim C1, counterexample — two link-less intro messages by the one
author `U9` trigger two resolver calls, exceeding the claimed
distinct-author bound of one. -/
theorem c1_counterexample :
    (DailyIntros.mainModel (.ok [msgBob1, msgBob2]) (fun _ _ => .notFound)
        "2025-09-21" "t").resolveCalls = [("U9", "u9"), ("U9", "u9")] ∧
    distinctLinklessIntroAuthors [msgBob1, msgBob2] = 1 ∧
    ¬((DailyIntros.mainModel (.ok [msgBob1, msgBob2]) (fun _ _ => .notFound)
        "2025-09-21" "t").resolveCalls.length ≤
      distinctLinklessIntroAuthors [msgBob1, msgBob2]) := by
  refine ⟨by decide, by decide, by decide⟩

theorem setRecordAt_getElem (f : DailyIntros.IntroRecord → DailyIntros.IntroRecord)
    (l : List DailyIntros.IntroRecord) :
    ∀ i j, (DailyIntros.setRecordAt i f l)[j]? = if j = i then l[j]?.map f else l[j]? := by
  induction l with
  | nil =>
    intro i j
    cases i <;> cases j <;> simp [DailyIntros.setRecordAt]
  | cons r rs ih =>
    intro i j
    cases i with
    | zero =>
      cases j with
      | zero => simp [DailyIntros.setRecordAt]
      | succ j => simp [DailyIntros.setRecordAt]
    | succ i =>
      cases j with
      | zero => simp [DailyIntros.setRecordAt]
      | succ j => simpa [DailyIntros.setRecordAt] using ih i j

theorem dictConsistent_setRecordAt (records : List DailyIntros.IntroRecord)
    (dict : List (String × Nat)) (i : Nat)
    (f : DailyIntros.IntroRecord → DailyIntros.IntroRecord)
    (hf : ∀ r, (f r).username = r.username)
    (h : dictConsistent records dict) :
    dictConsistent (DailyIntros.setRecordAt i f records) dict := by
  intro k j hl
  obtain ⟨r, hr, hu⟩ := h k j hl
  rw [setRecordAt_getElem]
  by_cases hji : j = i
  · refine ⟨f r, ?_, ?_⟩
    · rw [if_pos hji, hr]
      rfl
    · rw [hf]
      exact hu
  · rw [if_neg hji]
    exact ⟨r, hr, hu⟩

theorem phase1_consistent (msgs : List DailyIntros.Message) :
    ∀ st : DailyIntros.Phase1State, dictConsistent st.records st.byUsername →
      dictConsistent (msgs.foldl DailyIntros.phase1Step st).records
        (msgs.foldl DailyIntros.phase1Step st).byUsername := by
  induction msgs with
  | nil => intro st h; exact h
  | cons m ms ih =>
    intro st h
    rw [List.foldl_cons]
    refine ih _ ?_
    rcases hp : DailyIntros.parse_intro_message m with - | r
    · have hstep : DailyIntros.phase1Step st m = st := by
        unfold DailyIntros.phase1Step
        rw [hp]
      rw [hstep]
      exact h
    · have hstep : DailyIntros.phase1Step st m =
          { records := st.records ++ [r],
            byUsername := DailyIntros.dictInsert r.username st.records.length st.byUsername,
            pending := if r.linkedin_link.isNone = true ∧ m.userId ≠ "" then
                st.pending ++ [(m.userId, r.username)] else st.pending } := by
        unfold DailyIntros.phase1Step
        rw [hp]
      rw [hstep]
      intro k i hl
      simp only [DailyIntros.dictInsert, DailyIntros.dictLookup] at hl
      by_cases hk : r.username = k
      · rw [if_pos hk] at hl
        cases hl
        refine ⟨r, ?_, hk⟩
        simp
      · rw [if_neg hk] at hl
        obtain ⟨r', hr', hu'⟩ := h k i hl
        refine ⟨r', ?_, hu'⟩
        have hlt : i < st.records.length := by
          rcases List.getElem?_eq_some.mp hr' with ⟨hlt, -⟩
          exact hlt
        simp only
        rw [List.getElem?_append, if_pos hlt]
        exact hr'

theorem phase2_loop (resolver : String → String → DailyIntros.ResolveOutcome)
    (dict : List (String × Nat)) (uname url : String) (i : Nat)
    (hl : DailyIntros.dictLookup uname dict = some i) :
    ∀ (pending : List (String × String)) (records : List DailyIntros.IntroRecord)
      (r : DailyIntros.IntroRecord),
      dictConsistent records dict →
      records[i]? = some r → r.username = uname →
      (∀ p : String × String, p ∈ pending → p.2 = uname → resolver p.1 p.2 = .found url) →
      ∃ r', (DailyIntros.phase2 resolver dict records pending)[i]? = some r' ∧
        r'.username = uname ∧
        r'.linkedin_link =
          (if pending.any (fun p => p.2 == uname) then some url else r.linkedin_link) := by
  intro pending
  induction pending with
  | nil =>
    intro records r hcons hri hru hres
    exact ⟨r, hri, hru, by simp⟩
  | cons p ps ih =>
    intro records r hcons hri hru hres
    have hstep : DailyIntros.phase2 resolver dict records (p :: ps) =
        DailyIntros.phase2 resolver dict (DailyIntros.phase2Step resolver dict records p) ps := rfl
    rw [hstep]
    by_cases hpu : p.2 = uname
    · have hf : resolver p.1 p.2 = .found url := hres p (List.mem_cons_self p ps) hpu
      have hrec : DailyIntros.phase2Step resolver dict records p =
          DailyIntros.setRecordAt i (fun q => { q with linkedin_link := some url }) records := by
        unfold DailyIntros.phase2Step
        rw [hf, hpu, hl]
      rw [hrec]
      have hcons' := dictConsistent_setRecordAt records dict i
        (fun q => { q with linkedin_link := some url }) (fun _ => rfl) hcons
      have hri' : (DailyIntros.setRecordAt i
            (fun q => { q with linkedin_link := some url }) records)[i]? =
          some { r with linkedin_link := some url } := by
        rw [setRecordAt_getElem, if_pos rfl, hri]
        rfl
      obtain ⟨r', h1, h2, h3⟩ := ih _ { r with linkedin_link := some url } hcons' hri' hru
        (fun q hq hqu => hres q (List.mem_cons_of_mem p hq) hqu)
      refine ⟨r', h1, h2, ?_⟩
      rw [h3]
      have hany : (p :: ps).any (fun q => q.2 == uname) = true := by
        simp [List.any_cons, hpu]
      rw [hany]
      cases hps : ps.any (fun q => q.2 == uname) <;> simp [hps]
    · have hne : (p :: ps).any (fun q => q.2 == uname) = ps.any (fun q => q.2 == uname) := by
        simp [List.any_cons, hpu]
      have hkeep : (DailyIntros.phase2Step resolver dict records p)[i]? = some r ∧
          dictConsistent (DailyIntros.phase2Step resolver dict records p) dict := by
        unfold DailyIntros.phase2Step
        cases hro : resolver p.1 p.2 with
        | found url' =>
          cases hdl : DailyIntros.dictLookup p.2 dict with
          | none => exact ⟨hri, hcons⟩
          | some j =>
            obtain ⟨rj, hrj, hrju⟩ := hcons p.2 j hdl
            have hji : j ≠ i := by
              intro hji
              subst hji
              rw [hri] at hrj
              have : r = rj := by cases hrj; rfl
              subst this
              rw [hru] at hrju
              exact hpu hrju.symm
            constructor
            · rw [setRecordAt_getElem, if_neg (Ne.symm hji)]
              exact hri
            · exact dictConsistent_setRecordAt records dict j _ (fun _ => rfl) hcons
        | notFound => exact ⟨hri, hcons⟩
        | raised => exact ⟨hri, hcons⟩
      obtain ⟨r', h1, h2, h3⟩ := ih _ r hkeep.2 hkeep.1 hru
        (fun q hq hqu => hres q (List.mem_cons_of_mem p hq) hqu)
      exact ⟨r', h1, h2, by rw [h3, hne]⟩

/-- Claim C2 (amended) — when profile resolution succeeds for an
author, the IntroRecord the username dictionary points to — the most
recently parsed record for that author — ends the run with the
discovered link.  Earlier records by the same author are left as
parsed (see the counterexample): the update writes through the
dictionary binding only, not through every record of the author. -/
theorem c2_registered_record_gets_link (msgs : List DailyIntros.Message)
    (resolver : String → String → DailyIntros.ResolveOutcome) (dateStr genStr : String)
    (uid uname url : String) (i : Nat)
    (h1 : DailyIntros.dictLookup uname (DailyIntros.phase1 msgs).byUsername = some i)
    (h2 : (uid, uname) ∈ (DailyIntros.phase1 msgs).pending)
    (h3 : ∀ uid', (uid', uname) ∈ (DailyIntros.phase1 msgs).pending →
      resolver uid' uname = .found url) :
    ∃ r, (DailyIntros.mainModel (.ok msgs) resolver dateStr genStr).records[i]? = some r ∧
      r.username = uname ∧ r.linkedin_link = some url := by
  have hbase : dictConsistent ([] : List DailyIntros.IntroRecord) [] := by
    intro k j hl
    simp [DailyIntros.dictLookup] at hl
  have hcons := phase1_consistent msgs ⟨[], [], []⟩ hbase
  obtain ⟨r, hri, hru⟩ := hcons uname i h1
  have hres : ∀ p : String × String, p ∈ (DailyIntros.phase1 msgs).pending → p.2 = uname →
      resolver p.1 p.2 = .found url := by
    intro p hq hqu
    rw [hqu]
    refine h3 p.1 ?_
    rw [← hqu]
    exact hq
  obtain ⟨r', hg, hgu, hgl⟩ := phase2_loop resolver (DailyIntros.phase1 msgs).byUsername
    uname url i h1 (DailyIntros.phase1 msgs).pending (DailyIntros.phase1 msgs).records r
    hcons hri hru hres
  have hany : (DailyIntros.phase1 msgs).pending.any (fun p => p.2 == uname) = true := by
    rw [List.any_eq_true]
    exact ⟨(uid, uname), h2, by simp⟩
  rw [hany] at hgl
  have hrec : (DailyIntros.mainModel (.ok msgs) resolver dateStr genStr).records =
      DailyIntros.phase2 resolver (DailyIntros.phase1 msgs).byUsername
        (DailyIntros.phase1 msgs).records (DailyIntros.phase1 msgs).pending := rfl
  rw [hrec]
  exact ⟨r', hg, hgu, hgl⟩

/-- Claim C2, witness — the amended theorem at the two-message batch of
author `U9`, with a resolver that finds a link: the dictionary-registered
(second) record carries the link after the run. -/
theorem c2_witness :
    DailyIntros.dictLookup "u9" (DailyIntros.phase1 [msgBob1, msgBob2]).byUsername = some 1 ∧
    ("U9", "u9") ∈ (DailyIntros.phase1 [msgBob1, msgBob2]).pending ∧
    ∃ r, (DailyIntros.mainModel (.ok [msgBob1, msgBob2])
        (fun _ _ => .found "https://linkedin.com/in/bobsmith") "2025-09-21" "t").records[1]? =
          some r ∧
      r.username = "u9" ∧ r.linkedin_link = some "https://linkedin.com/in/bobsmith" :=
  ⟨by decide, by decide,
   c2_registered_record_gets_link [msgBob1, msgBob2]
     (fun _ _ => .found "https://linkedin.com/in/bobsmith") "2025-09-21" "t"
     "U9" "u9" "https://linkedin.com/in/bobsmith" 1 (by decide) (by decide)
     (fun _ _ => rfl)⟩

/-- Claim C2, counterexample — in the same batch, with resolution
succeeding for `U9` on every call, the author's *first* IntroRecord
still ends the run without the link: only the dictionary-registered
second record is updated, so not every IntroRecord of the author
carries the discovered URL. -/
theorem c2_counterexample :
    (DailyIntros.mainModel (.ok [msgBob1, msgBob2])
        (fun _ _ => .found "https://linkedin.com/in/bobsmith") "2025-09-21" "t").records.map
      (fun r => r.username) = ["u9", "u9"] ∧
    (DailyIntros.mainModel (.ok [msgBob1, msgBob2])
        (fun _ _ => .found "https://linkedin.com/in/bobsmith") "2025-09-21" "t").records.map
      (fun r => r.linkedin_link) = [none, some "https://linkedin.com/in/bobsmith"] := by
  refine ⟨by decide, by decide⟩

/-! ### Claim C6: idempotence analysis of the extractor -/

theorem char_eq_of_toNat_eq (a b : Char) (h : a.toNat = b.toNat) : a = b := by
  apply Char.eq_of_val_eq
  exact UInt32.toNat.inj h

theorem lowerAscii_ne (c d : Char) (hcd : c ≠ d)
    (hd : ¬(97 ≤ d.toNat ∧ d.toNat ≤ 122)) : lowerAscii c ≠ d := by
  intro h
  have ht := toNat_lowerAscii c
  rw [h] at ht
  by_cases hu : 65 ≤ c.toNat ∧ c.toNat ≤ 90
  · rw [if_pos hu] at ht
    exact hd (by omega)
  · rw [if_neg hu] at ht
    exact hcd (char_eq_of_toNat_eq c d ht.symm)

theorem ciEq_false_of_ne (x c : Char) (hx : lowerAscii x = x)
    (hxr : ¬(97 ≤ x.toNat ∧ x.toNat ≤ 122)) (hne : c ≠ x) : ciEq x c = false := by
  unfold ciEq
  rw [hx]
  exact beq_eq_false_iff_ne.mpr (Ne.symm (lowerAscii_ne c x hne hxr))

theorem ciDropLit_cons_none (l : Char) (ls : List Char) (c : Char) (cs : List Char)
    (h : ciEq l c = false) : ciDropLit (l :: ls) (c :: cs) = none := by
  simp [ciDropLit, h]

theorem pattern1_cons_none (c : Char) (cs : List Char) (h : c ≠ '<') :
    DailyIntros.pattern1 (c :: cs) = none := by
  have hci : ciEq '<' c = false := ciEq_false_of_ne '<' c rfl (by decide) h
  have e1 : ciDropLit (lit "<https://www.linkedin.com/in/") (c :: cs) = none := by
    rw [show lit "<https://www.linkedin.com/in/" =
      '<' :: lit "https://www.linkedin.com/in/" from rfl]
    exact ciDropLit_cons_none _ _ _ _ hci
  have e2 : ciDropLit (lit "<https://linkedin.com/in/") (c :: cs) = none := by
    rw [show lit "<https://linkedin.com/in/" = '<' :: lit "https://linkedin.com/in/" from rfl]
    exact ciDropLit_cons_none _ _ _ _ hci
  have e3 : ciDropLit (lit "<http://www.linkedin.com/in/") (c :: cs) = none := by
    rw [show lit "<http://www.linkedin.com/in/" =
      '<' :: lit "http://www.linkedin.com/in/" from rfl]
    exact ciDropLit_cons_none _ _ _ _ hci
  have e4 : ciDropLit (lit "<http://linkedin.com/in/") (c :: cs) = none := by
    rw [show lit "<http://linkedin.com/in/" = '<' :: lit "http://linkedin.com/in/" from rfl]
    exact ciDropLit_cons_none _ _ _ _ hci
  unfold DailyIntros.pattern1
  simp only [tryAlts, e1, e2, e3, e4]

theorem pattern2_cons_none (c : Char) (cs : List Char) (h : c ≠ '(') :
    DailyIntros.pattern2 (c :: cs) = none := by
  have hci : ciEq '(' c = false := ciEq_false_of_ne '(' c rfl (by decide) h
  have e1 : ciDropLit (lit "(https://www.linkedin.com/in/") (c :: cs) = none := by
    rw [show lit "(https://www.linkedin.com/in/" =
      '(' :: lit "https://www.linkedin.com/in/" from rfl]
    exact ciDropLit_cons_none _ _ _ _ hci
  have e2 : ciDropLit (lit "(https://linkedin.com/in/") (c :: cs) = none := by
    rw [show lit "(https://linkedin.com/in/" = '(' :: lit "https://linkedin.com/in/" from rfl]
    exact ciDropLit_cons_none _ _ _ _ hci
  have e3 : ciDropLit (lit "(http://www.linkedin.com/in/") (c :: cs) = none := by
    rw [show lit "(http://www.linkedin.com/in/" =
      '(' :: lit "http://www.linkedin.com/in/" from rfl]
    exact ciDropLit_cons_none _ _ _ _ hci
  have e4 : ciDropLit (lit "(http://linkedin.com/in/") (c :: cs) = none := by
    rw [show lit "(http://linkedin.com/in/" = '(' :: lit "http://linkedin.com/in/" from rfl]
    exact ciDropLit_cons_none _ _ _ _ hci
  unfold DailyIntros.pattern2
  simp only [tryAlts, e1, e2, e3, e4]

theorem searchLen_pattern1_none (u : List Char) (h : '<' ∉ u) :
    searchLen DailyIntros.pattern1 u = none := by
  induction u with
  | nil => rfl
  | cons c cs ih =>
    have hc : c ≠ '<' := by
      intro e
      rw [e] at h
      exact h (List.mem_cons_self '<' cs)
    have hcs : '<' ∉ cs := fun e => h (List.mem_cons_of_mem c e)
    unfold searchLen
    rw [pattern1_cons_none c cs hc]
    exact ih hcs

theorem searchLen_pattern2_none (u : List Char) (h : '(' ∉ u) :
    searchLen DailyIntros.pattern2 u = none := by
  induction u with
  | nil => rfl
  | cons c cs ih =>
    have hc : c ≠ '(' := by
      intro e
      rw [e] at h
      exact h (List.mem_cons_self '(' cs)
    have hcs : '(' ∉ cs := fun e => h (List.mem_cons_of_mem c e)
    unfold searchLen
    rw [pattern2_cons_none c cs hc]
    exact ih hcs

theorem searchLen_full (m : List Char → Option Nat) (c : Char) (cs : List Char)
    (hm : m (c :: cs) = some (c :: cs).length) :
    searchLen m (c :: cs) = some (c :: cs) := by
  unfold searchLen
  rw [hm]
  simp

theorem pattern3_full (seg : List Char) (hne : seg ≠ [])
    (hall : ∀ x ∈ seg, isWordDashDot x = true) :
    DailyIntros.pattern3 (lit "https://linkedin.com/in/" ++ seg) =
      some (lit "https://linkedin.com/in/" ++ seg).length := by
  have halt1 : ciDropLit (lit "https://www.linkedin.com/in/")
      (lit "https://linkedin.com/in/" ++ seg) = none := rfl
  have halt2 : ciDropLit (lit "https://linkedin.com/in/")
      (lit "https://linkedin.com/in/" ++ seg) = some seg := rfl
  have htake : seg.takeWhile isWordDashDot = seg := List.takeWhile_eq_self_iff.mpr hall
  have hdrop : seg.dropWhile isWordDashDot = [] := List.dropWhile_eq_nil_iff.mpr hall
  obtain ⟨c0, rev, hrev⟩ : ∃ c0 rev, seg.reverse = c0 :: rev := by
    cases hsr : seg.reverse with
    | nil => exact absurd (List.reverse_eq_nil_iff.mp hsr) hne
    | cons c0 rev => exact ⟨c0, rev, rfl⟩
  have htail : classSlashLook isWordDashDot DailyIntros.inLookahead seg = some seg.length := by
    unfold classSlashLook
    rw [htake, hdrop, hrev]
    unfold classRunBacktrack
    rw [show slashLookTry DailyIntros.inLookahead (rev.length + 1) [] =
      some (rev.length + 1) from rfl]
    have hlen : rev.length + 1 = seg.length := by
      have h1 := congrArg List.length hrev
      rw [List.length_reverse] at h1
      simpa using h1.symm
    rw [hlen]
  unfold DailyIntros.pattern3 DailyIntros.httpInAlts
  simp only [tryAlts, halt1, halt2, htail]
  simp [List.length_append]

theorem firstPatternMatch_canonical (seg : List Char) (hne : seg ≠ [])
    (hall : ∀ x ∈ seg, isWordDashDot x = true) :
    DailyIntros.firstPatternMatch (lit "https://linkedin.com/in/" ++ seg) =
      some (lit "https://linkedin.com/in/" ++ seg) := by
  have hlt : '<' ∉ lit "https://linkedin.com/in/" ++ seg := by
    intro hm
    rcases List.mem_append.mp hm with hm | hm
    · exact absurd hm (by decide)
    · exact absurd (hall _ hm) (by decide)
  have hlp : '(' ∉ lit "https://linkedin.com/in/" ++ seg := by
    intro hm
    rcases List.mem_append.mp hm with hm | hm
    · exact absurd hm (by decide)
    · exact absurd (hall _ hm) (by decide)
  have h1 := searchLen_pattern1_none _ hlt
  have h2 := searchLen_pattern2_none _ hlp
  have h3 : searchLen DailyIntros.pattern3 (lit "https://linkedin.com/in/" ++ seg) =
      some (lit "https://linkedin.com/in/" ++ seg) := by
    have hcons : lit "https://linkedin.com/in/" ++ seg =
        'h' :: (lit "ttps://linkedin.com/in/" ++ seg) := rfl
    rw [hcons]
    refine searchLen_full _ _ _ ?_
    rw [← hcons]
    exact pattern3_full seg hne hall
  unfold DailyIntros.firstPatternMatch
  rw [h1, h2, h3]

theorem cleanUrl_canonical (seg : List Char) (c : Char) (hne : seg ≠ [])
    (hall : ∀ x ∈ seg, isWordDashDot x = true)
    (hlast : seg.getLast? = some c) (hpc : isPunctChar c = false)
    (hthis : litEnds (lit "This") (lit "https://linkedin.com/in/" ++ seg) = false) :
    DailyIntros.cleanUrl (lit "https://linkedin.com/in/" ++ seg) =
      lit "https://linkedin.com/in/" ++ seg := by
  obtain ⟨rev, hrevseg⟩ : ∃ rev, seg.reverse = c :: rev := by
    cases hsr : seg.reverse with
    | nil => exact absurd (List.reverse_eq_nil_iff.mp hsr) hne
    | cons c0 rev =>
      have hh : seg.reverse.head? = some c0 := by rw [hsr]; rfl
      rw [List.head?_reverse, hlast] at hh
      cases hh
      exact ⟨rev, rfl⟩
  have hsrev : (lit "https://linkedin.com/in/" ++ seg).reverse =
      c :: (rev ++ (lit "https://linkedin.com/in/").reverse) := by
    rw [List.reverse_append, hrevseg]
    rfl
  have hcmem : c ∈ seg := by
    rw [← List.mem_reverse, hrevseg]
    exact List.mem_cons_self c rev
  have hw : isWordDashDot c = true := hall c hcmem
  have hgl : (lit "https://linkedin.com/in/" ++ seg).getLast? = some c := by
    rw [List.getLast?_append, hlast]
    rfl
  have hcn : c ≠ '\n' := by
    intro e
    rw [e] at hw
    exact absurd hw (by decide)
  have hgt : ('>' == c) = false := by
    refine beq_eq_false_iff_ne.mpr ?_
    intro e
    rw [← e] at hw
    exact absurd hw (by decide)
  have hsl : ('/' == c) = false := by
    refine beq_eq_false_iff_ne.mpr ?_
    intro e
    rw [← e] at hw
    exact absurd hw (by decide)
  have hcigt : ciEq '>' c = false := by
    refine ciEq_false_of_ne '>' c rfl (by decide) ?_
    intro e
    rw [e] at hw
    exact absurd hw (by decide)
  have hendsLI : litEnds (lit "LinkedIn>") (lit "https://linkedin.com/in/" ++ seg) = false := by
    unfold litEnds
    rw [show (lit "LinkedIn>").reverse = '>' :: lit "nIdekniL" from rfl, hsrev]
    simp [litStarts, hgt]
  have hendsCI : ciEnds (lit "linkedin>") (lit "https://linkedin.com/in/" ++ seg) = false := by
    unfold ciEnds
    rw [show (lit "linkedin>").reverse = '>' :: lit "nideknil" from rfl, hsrev]
    simp [ciStarts, hcigt]
  have hendsSl : litEnds (lit "/") (lit "https://linkedin.com/in/" ++ seg) = false := by
    unfold litEnds
    rw [show (lit "/").reverse = ['/'] from rfl, hsrev]
    simp [litStarts, hsl]
  have step0 : DailyIntros.stripWrapper (lit "https://linkedin.com/in/" ++ seg) =
      lit "https://linkedin.com/in/" ++ seg := rfl
  have stepPunct : DailyIntros.stripTrailingPunct (lit "https://linkedin.com/in/" ++ seg) =
      lit "https://linkedin.com/in/" ++ seg := by
    unfold DailyIntros.stripTrailingPunct DailyIntros.applyAnchored
    rw [hgl]
    split
    · rename_i heq
      injection heq with heq
      exact absurd heq hcn
    · unfold dropTrailingWhile
      rw [hsrev, List.dropWhile_cons, hpc]
      simp only [Bool.false_eq_true, if_false]
      rw [← hsrev, List.reverse_reverse]
  have stepCS : DailyIntros.stripLinkedInLabel (lit "https://linkedin.com/in/" ++ seg) =
      lit "https://linkedin.com/in/" ++ seg := by
    unfold DailyIntros.stripLinkedInLabel DailyIntros.applyAnchored
    rw [hgl]
    split
    · rename_i heq
      injection heq with heq
      exact absurd heq hcn
    · simp [hendsLI]
  have stepCI : DailyIntros.stripLinkedinLabelCI (lit "https://linkedin.com/in/" ++ seg) =
      lit "https://linkedin.com/in/" ++ seg := by
    unfold DailyIntros.stripLinkedinLabelCI DailyIntros.applyAnchored
    rw [hgl]
    split
    · rename_i heq
      injection heq with heq
      exact absurd heq hcn
    · simp [hendsCI]
  have stepThis : DailyIntros.stripThisLabel (lit "https://linkedin.com/in/" ++ seg) =
      lit "https://linkedin.com/in/" ++ seg := by
    unfold DailyIntros.stripThisLabel DailyIntros.applyAnchored
    rw [hgl]
    split
    · rename_i heq
      injection heq with heq
      exact absurd heq hcn
    · simp [hthis]
  have stepSlash : DailyIntros.collapseTrailingSlashes (lit "https://linkedin.com/in/" ++ seg) =
      lit "https://linkedin.com/in/" ++ seg := by
    unfold DailyIntros.collapseTrailingSlashes DailyIntros.applyAnchored
    rw [hgl]
    split
    · rename_i heq
      injection heq with heq
      exact absurd heq hcn
    · simp [hendsSl]
  have stepProto : DailyIntros.addProtocol (lit "https://linkedin.com/in/" ++ seg) =
      lit "https://linkedin.com/in/" ++ seg := rfl
  unfold DailyIntros.cleanUrl
  rw [step0, stepPunct, stepCS, stepCI, stepThis, stepSlash, stepProto]

/-- Claim C6 (amended) — re-extraction is the identity on the
extractor's output whenever that output is a canonical profile URL
`https://linkedin.com/in/<seg>` whose username `seg` is a nonempty run
of word/dash/dot characters not ending in sentence punctuation and not
ending in `This`.  Unconditional idempotence fails — bracketed matches
can emit URLs with embedded spaces, and the `This`/punctuation cleanups
can emit URLs that re-extract shorter (see the counterexample). -/
theorem c6_reextraction_fixed_on_canonical (t seg : List Char) (c : Char)
    (_ht : DailyIntros.extractLinkedinLinkL t = some (lit "https://linkedin.com/in/" ++ seg))
    (hne : seg ≠ []) (hall : ∀ x ∈ seg, isWordDashDot x = true)
    (hlast : seg.getLast? = some c) (hpc : isPunctChar c = false)
    (hthis : litEnds (lit "This") (lit "https://linkedin.com/in/" ++ seg) = false) :
    DailyIntros.extractLinkedinLinkL (lit "https://linkedin.com/in/" ++ seg) =
      some (lit "https://linkedin.com/in/" ++ seg) := by
  unfold DailyIntros.extractLinkedinLinkL
  rw [firstPatternMatch_canonical seg hne hall]
  simp [cleanUrl_canonical seg c hne hall hlast hpc hthis]

/-- Claim C6, witness — the amended theorem at a concrete extraction:
the output for `x https://linkedin.com/in/jane-doe` is canonical and
re-extracts to itself. -/
theorem c6_witness :
    DailyIntros.extractLinkedinLinkL (lit "x https://linkedin.com/in/jane-doe") =
      some (lit "https://linkedin.com/in/" ++ lit "jane-doe") ∧
    DailyIntros.extractLinkedinLinkL (lit "https://linkedin.com/in/" ++ lit "jane-doe") =
      some (lit "https://linkedin.com/in/" ++ lit "jane-doe") :=
  ⟨by decide,
   c6_reextraction_fixed_on_canonical (lit "x https://linkedin.com/in/jane-doe")
     (lit "jane-doe") 'e' (by decide) (by decide) (by decide) (by decide) (by decide)
     (by decide)⟩

/-- Claim C6, counterexample — idempotence fails as stated: an
angle-bracketed URL containing a space extracts to
`https://linkedin.com/in/a b`, and re-extracting from that output
truncates at the space, returning a different value. -/
theorem c6_counterexample :
    DailyIntros.extract_linkedin_link "<https://linkedin.com/in/a b>" =
      some "https://linkedin.com/in/a b" ∧
    DailyIntros.extract_linkedin_link "https://linkedin.com/in/a b" =
      some "https://linkedin.com/in/a" ∧
    ("https://linkedin.com/in/a" : String) ≠ "https://linkedin.com/in/a b" := by
  refine ⟨by decide, by decide, by decide⟩
